import Mathlib

/-!
Verification of the Kerr black-hole validation harness
(`validation/verify_kerr.py`).

The script evaluates closed-form Kerr quantities (gravitational radius,
ISCO radius, photon-ring radius), compares them against fixed literature
reference tables, aggregates relative errors into a report, and prints a
verdict line with a process exit status.

Embedding choices: IEEE doubles are modelled as real numbers; Python
dictionaries with fixed insertion order are modelled as association
lists; code that can raise an exception (`max`/`statistics.fmean` on an
empty sequence) is modelled with `Except`.  File writing is out of
scope: `run_checks` keeps its output-path argument but the write itself
has no observable effect on any claim.
-/

namespace VerifyKerr

open Real

/-- Physical constant `G` from the script header. -/
def G : ℝ := 6.67430e-11

/-- Speed of light `C` from the script header. -/
def C : ℝ := 299792458

/-- Solar mass in kilograms from the script header. -/
def SOLAR_MASS : ℝ := 1.98847e30

/-- `gravitational_radius(mass_solar)`: `(2*G*mass_solar*SOLAR_MASS)/(C*C)`. -/
noncomputable def gravitational_radius (mass_solar : ℝ) : ℝ :=
  (2 * G * mass_solar * SOLAR_MASS) / (C * C)

/-- The clamped spin `a = max(min(spin, 0.998), -0.998)` of `isco_radius`. -/
noncomputable def isco_a (spin : ℝ) : ℝ := max (min spin 0.998) (-0.998)

/-- The intermediate `term = (1 - a*a) ** (1/3)` of `isco_radius`. -/
noncomputable def isco_term (spin : ℝ) : ℝ :=
  (1 - isco_a spin * isco_a spin) ^ ((1 : ℝ) / 3)

/-- The intermediate `z1 = 1 + term * ((1+a)**(1/3) + (1-a)**(1/3))` of
`isco_radius`. -/
noncomputable def isco_z1 (spin : ℝ) : ℝ :=
  1 + isco_term spin *
    ((1 + isco_a spin) ^ ((1 : ℝ) / 3) + (1 - isco_a spin) ^ ((1 : ℝ) / 3))

/-- The intermediate `z2 = sqrt(3*a*a + z1*z1)` of `isco_radius`. -/
noncomputable def isco_z2 (spin : ℝ) : ℝ :=
  Real.sqrt (3 * isco_a spin * isco_a spin + isco_z1 spin * isco_z1 spin)

/-- The factor `sign = 1 if a >= 0 else -1` of `isco_radius`. -/
noncomputable def isco_sign (spin : ℝ) : ℝ :=
  if 0 ≤ isco_a spin then 1 else -1

/-- `isco_radius(spin)`: the Bardeen-Press-Teukolsky ISCO radius
`3 + z2 - sign * sqrt((3 - z1) * (3 + z1 + 2*z2))`. -/
noncomputable def isco_radius (spin : ℝ) : ℝ :=
  3 + isco_z2 spin -
    isco_sign spin *
      Real.sqrt ((3 - isco_z1 spin) * (3 + isco_z1 spin + 2 * isco_z2 spin))

/-- The clamped spin `a = max(min(abs(spin), 0.999), 1e-6)` of
`photon_radius`. -/
noncomputable def photon_a (spin : ℝ) : ℝ := max (min |spin| 0.999) 1e-6

/-- `photon_radius(spin)`: `2 * (1 + cos((2/3) * acos(-a)))`. -/
noncomputable def photon_radius (spin : ℝ) : ℝ :=
  2 * (1 + Real.cos ((2 / 3) * Real.arccos (-photon_a spin)))

/-- The `REFERENCE_ISCO` table, in insertion order. -/
noncomputable def REFERENCE_ISCO : List (ℝ × ℝ) :=
  [(0.0, 6.0), (0.5, 4.233), (0.9, 2.320), (0.998, 1.237)]

/-- The `REFERENCE_PHOTON` table, in insertion order. -/
noncomputable def REFERENCE_PHOTON : List (ℝ × ℝ) :=
  [(0.0, 3.0), (0.5, 2.3472963553), (0.9, 1.5578546274), (0.998, 1.0739092577)]

/-- The per-entry relative error `abs(value - expected) / expected`
computed inside `check_series`. -/
noncomputable def relative_error (value expected : ℝ) : ℝ :=
  |value - expected| / expected

/-- `check_series(reference, fn, label)`: one `(label, spin, rel_err)`
tuple per table row, in table order. -/
noncomputable def check_series (reference : List (ℝ × ℝ)) (fn : ℝ → ℝ)
    (label : String) : List (String × ℝ × ℝ) :=
  reference.map fun p => (label, p.1, relative_error (fn p.1) p.2)

/-- `summarize(errors)`: `{max_rel_error, mean_rel_error}` over the
relative errors.  On an empty sequence Python's `max` raises
`ValueError` before any division happens; this is the `Except.error`
branch. -/
noncomputable def summarize (errors : List (String × ℝ × ℝ)) :
    Except String (ℝ × ℝ) :=
  match errors.map (fun t => t.2.2) with
  | [] => Except.error "max() arg is an empty sequence"
  | v :: vs => Except.ok (vs.foldl max v, (v :: vs).sum / ((v :: vs).length : ℝ))

/-- One element of the report's `entries` field. -/
structure Entry where
  quantity : String
  spin : ℝ
  relative_error : ℝ

/-- The JSON report assembled by `run_checks`. -/
structure Report where
  mass_solar : ℝ
  grav_radius_m : ℝ
  max_rel_error : ℝ
  mean_rel_error : ℝ
  ok : Bool
  entries : List Entry

/-- `run_checks(mass_solar, output)`: evaluate both series, summarize,
and build the report with `ok = max_rel_error < 8e-3`.  The JSON write
to `output` has no effect on the returned report. -/
noncomputable def run_checks (mass_solar : ℝ) (output : String) :
    Except String Report :=
  let grav_radius := gravitational_radius mass_solar
  let errors :=
    check_series REFERENCE_ISCO isco_radius "isco" ++
      check_series REFERENCE_PHOTON photon_radius "photon"
  (summarize errors).map fun summary =>
    { mass_solar := mass_solar
      grav_radius_m := grav_radius
      max_rel_error := summary.1
      mean_rel_error := summary.2
      ok := decide (summary.1 < (8e-3 : ℝ))
      entries := errors.map fun t => ⟨t.1, t.2.1, t.2.2⟩ }

/-- A piece of the printed verdict line: literal text or a formatted
number (the `:.4e` rendering itself is kept abstract as a token). -/
inductive OutPiece where
  | lit : String → OutPiece
  | num : ℝ → OutPiece

/-- The single line `main` prints, as the source builds it:
`[{verdict}] max_rel_error={max:.4e} mean_rel_error={mean:.4e}` with
`verdict = "PASS" if report["ok"] else "FAIL"`. -/
noncomputable def stdout_line (report : Report) : List OutPiece :=
  [OutPiece.lit "[", OutPiece.lit (if report.ok then "PASS" else "FAIL"),
    OutPiece.lit "] max_rel_error=", OutPiece.num report.max_rel_error,
    OutPiece.lit " mean_rel_error=", OutPiece.num report.mean_rel_error]

/-- Spec-side line for the refinement comparison of the stdout claim:
the specification's section 6 says the PASS form omits
`mean_rel_error`, while the FAIL form includes it. -/
noncomputable def spec_stdout_line (report : Report) : List OutPiece :=
  if report.ok then
    [OutPiece.lit "[", OutPiece.lit "PASS",
      OutPiece.lit "] max_rel_error=", OutPiece.num report.max_rel_error]
  else
    [OutPiece.lit "[", OutPiece.lit "FAIL",
      OutPiece.lit "] max_rel_error=", OutPiece.num report.max_rel_error,
      OutPiece.lit " mean_rel_error=", OutPiece.num report.mean_rel_error]

/-- `main(argv)` after argument parsing: run the checks, print the
verdict line, and return `0` if `ok` else `1`. -/
noncomputable def main (mass : ℝ) (out : String) :
    Except String (List OutPiece × ℕ) :=
  (run_checks mass out).map fun report =>
    (stdout_line report, if report.ok then 0 else 1)

/-- The eight relative errors `run_checks` accumulates, isco rows first,
each group in table insertion order. -/
noncomputable def kerr_rel_errors : List ℝ :=
  [relative_error (isco_radius 0.0) 6.0,
    relative_error (isco_radius 0.5) 4.233,
    relative_error (isco_radius 0.9) 2.320,
    relative_error (isco_radius 0.998) 1.237,
    relative_error (photon_radius 0.0) 3.0,
    relative_error (photon_radius 0.5) 2.3472963553,
    relative_error (photon_radius 0.9) 1.5578546274,
    relative_error (photon_radius 0.998) 1.0739092577]

/-- The tail of `kerr_rel_errors`, the accumulator seeded with its
head, as Python's `max` folds over the list. -/
noncomputable def kerr_max_rel_error : ℝ :=
  List.foldl max (relative_error (isco_radius 0.0) 6.0)
    [relative_error (isco_radius 0.5) 4.233,
      relative_error (isco_radius 0.9) 2.320,
      relative_error (isco_radius 0.998) 1.237,
      relative_error (photon_radius 0.0) 3.0,
      relative_error (photon_radius 0.5) 2.3472963553,
      relative_error (photon_radius 0.9) 1.5578546274,
      relative_error (photon_radius 0.998) 1.0739092577]

/-- The report `run_checks` actually returns, with every list fully
evaluated (proved equal to `run_checks` below by `rfl`). -/
noncomputable def kerr_report (m : ℝ) : Report :=
  { mass_solar := m
    grav_radius_m := gravitational_radius m
    max_rel_error := kerr_max_rel_error
    mean_rel_error := kerr_rel_errors.sum / (kerr_rel_errors.length : ℝ)
    ok := decide (kerr_max_rel_error < (8e-3 : ℝ))
    entries :=
      [⟨"isco", 0.0, relative_error (isco_radius 0.0) 6.0⟩,
        ⟨"isco", 0.5, relative_error (isco_radius 0.5) 4.233⟩,
        ⟨"isco", 0.9, relative_error (isco_radius 0.9) 2.320⟩,
        ⟨"isco", 0.998, relative_error (isco_radius 0.998) 1.237⟩,
        ⟨"photon", 0.0, relative_error (photon_radius 0.0) 3.0⟩,
        ⟨"photon", 0.5, relative_error (photon_radius 0.5) 2.3472963553⟩,
        ⟨"photon", 0.9, relative_error (photon_radius 0.9) 1.5578546274⟩,
        ⟨"photon", 0.998, relative_error (photon_radius 0.998) 1.0739092577⟩] }

/-! ### General bounding lemmas -/

/-- Lower bound for a real cube root from a lower bound on the cube. -/
lemma le_rpow_third {x l : ℝ} (hl : 0 ≤ l) (h : l ^ 3 ≤ x) :
    l ≤ x ^ ((1 : ℝ) / 3) := by
  rw [show ((1 : ℝ) / 3) = ((3 : ℕ) : ℝ)⁻¹ by norm_num]
  calc l = (l ^ 3 : ℝ) ^ ((3 : ℕ) : ℝ)⁻¹ :=
        (Real.pow_rpow_inv_natCast hl (by norm_num)).symm
    _ ≤ x ^ ((3 : ℕ) : ℝ)⁻¹ := Real.rpow_le_rpow (by positivity) h (by norm_num)

/-- Upper bound for a real cube root from an upper bound on the cube. -/
lemma rpow_third_le {x u : ℝ} (hx : 0 ≤ x) (hu : 0 ≤ u) (h : x ≤ u ^ 3) :
    x ^ ((1 : ℝ) / 3) ≤ u := by
  rw [show ((1 : ℝ) / 3) = ((3 : ℕ) : ℝ)⁻¹ by norm_num]
  calc x ^ ((3 : ℕ) : ℝ)⁻¹ ≤ (u ^ 3 : ℝ) ^ ((3 : ℕ) : ℝ)⁻¹ :=
        Real.rpow_le_rpow hx h (by norm_num)
    _ = u := Real.pow_rpow_inv_natCast hu (by norm_num)

/-- Cubing a cube root of a nonnegative real recovers the real. -/
lemma rpow_third_cube {x : ℝ} (hx : 0 ≤ x) : (x ^ ((1 : ℝ) / 3)) ^ 3 = x := by
  rw [show ((1 : ℝ) / 3) = ((3 : ℕ) : ℝ)⁻¹ by norm_num]
  exact Real.rpow_inv_natCast_pow hx (by norm_num)

/-- Two-sided bound for a square root from bounds on the radicand. -/
lemma sqrt_bounds {x l u : ℝ} (hl : 0 ≤ l) (hu : 0 ≤ u)
    (h1 : l ^ 2 ≤ x) (h2 : x ≤ u ^ 2) :
    l ≤ Real.sqrt x ∧ Real.sqrt x ≤ u := by
  refine ⟨Real.le_sqrt_of_sq_le h1, ?_⟩
  calc Real.sqrt x ≤ Real.sqrt (u ^ 2) := Real.sqrt_le_sqrt h2
    _ = u := Real.sqrt_sq hu

/-- The clamped ISCO spin stays in `[-0.998, 0.998]`. -/
lemma isco_a_mem (spin : ℝ) : -0.998 ≤ isco_a spin ∧ isco_a spin ≤ 0.998 := by
  unfold isco_a
  exact ⟨le_max_right _ _, max_le (min_le_right _ _) (by norm_num)⟩

/-- The intermediate `term` of `isco_radius` is nonnegative. -/
lemma isco_term_nonneg (spin : ℝ) : 0 ≤ isco_term spin := by
  obtain ⟨h1, h2⟩ := isco_a_mem spin
  exact Real.rpow_nonneg (by nlinarith) _

/-- The intermediate `z1` of `isco_radius` is at least `1`. -/
lemma isco_z1_ge_one (spin : ℝ) : 1 ≤ isco_z1 spin := by
  obtain ⟨h1, h2⟩ := isco_a_mem spin
  have ht := isco_term_nonneg spin
  have hu : 0 ≤ (1 + isco_a spin) ^ ((1 : ℝ) / 3) :=
    Real.rpow_nonneg (by linarith) _
  have hv : 0 ≤ (1 - isco_a spin) ^ ((1 : ℝ) / 3) :=
    Real.rpow_nonneg (by linarith) _
  unfold isco_z1
  nlinarith [mul_nonneg ht (add_nonneg hu hv)]

/-- The intermediate `z1` of `isco_radius` never exceeds `3`: with
`u = (1+a)^(1/3)` and `v = (1-a)^(1/3)` one has
`z1 - 1 = u*v*(u+v) ≤ u^3 + v^3 = 2` because `(u+v)*(u-v)^2 ≥ 0`. -/
lemma isco_z1_le_three (spin : ℝ) : isco_z1 spin ≤ 3 := by
  obtain ⟨h1, h2⟩ := isco_a_mem spin
  have ha1 : (0 : ℝ) ≤ 1 + isco_a spin := by linarith
  have ha2 : (0 : ℝ) ≤ 1 - isco_a spin := by linarith
  have hU : 0 ≤ (1 + isco_a spin) ^ ((1 : ℝ) / 3) := Real.rpow_nonneg ha1 _
  have hV : 0 ≤ (1 - isco_a spin) ^ ((1 : ℝ) / 3) := Real.rpow_nonneg ha2 _
  have hU3 : ((1 + isco_a spin) ^ ((1 : ℝ) / 3)) ^ 3 = 1 + isco_a spin :=
    rpow_third_cube ha1
  have hV3 : ((1 - isco_a spin) ^ ((1 : ℝ) / 3)) ^ 3 = 1 - isco_a spin :=
    rpow_third_cube ha2
  have hterm : isco_term spin =
      (1 + isco_a spin) ^ ((1 : ℝ) / 3) * (1 - isco_a spin) ^ ((1 : ℝ) / 3) := by
    unfold isco_term
    rw [show (1 - isco_a spin * isco_a spin : ℝ)
        = (1 + isco_a spin) * (1 - isco_a spin) by ring,
      Real.mul_rpow ha1 ha2]
  unfold isco_z1
  rw [hterm]
  nlinarith [mul_nonneg (add_nonneg hU hV)
    (sq_nonneg ((1 + isco_a spin) ^ ((1 : ℝ) / 3) -
      (1 - isco_a spin) ^ ((1 : ℝ) / 3)))]

/-- If the clamped spin is positive, `z1` is strictly below `3`. -/
lemma isco_z1_lt_three {spin : ℝ} (h : 0 < isco_a spin) : isco_z1 spin < 3 := by
  obtain ⟨h1, h2⟩ := isco_a_mem spin
  have ha1 : (0 : ℝ) ≤ 1 + isco_a spin := by linarith
  have ha2 : (0 : ℝ) ≤ 1 - isco_a spin := by linarith
  have hU : 0 ≤ (1 + isco_a spin) ^ ((1 : ℝ) / 3) := Real.rpow_nonneg ha1 _
  have hV : 0 ≤ (1 - isco_a spin) ^ ((1 : ℝ) / 3) := Real.rpow_nonneg ha2 _
  have hVU : (1 - isco_a spin) ^ ((1 : ℝ) / 3)
      < (1 + isco_a spin) ^ ((1 : ℝ) / 3) :=
    Real.rpow_lt_rpow ha2 (by linarith) (by norm_num)
  have hU3 : ((1 + isco_a spin) ^ ((1 : ℝ) / 3)) ^ 3 = 1 + isco_a spin :=
    rpow_third_cube ha1
  have hV3 : ((1 - isco_a spin) ^ ((1 : ℝ) / 3)) ^ 3 = 1 - isco_a spin :=
    rpow_third_cube ha2
  have hterm : isco_term spin =
      (1 + isco_a spin) ^ ((1 : ℝ) / 3) * (1 - isco_a spin) ^ ((1 : ℝ) / 3) := by
    unfold isco_term
    rw [show (1 - isco_a spin * isco_a spin : ℝ)
        = (1 + isco_a spin) * (1 - isco_a spin) by ring,
      Real.mul_rpow ha1 ha2]
  unfold isco_z1
  rw [hterm]
  nlinarith [mul_pos
    (show (0 : ℝ) < (1 + isco_a spin) ^ ((1 : ℝ) / 3) +
        (1 - isco_a spin) ^ ((1 : ℝ) / 3) by nlinarith)
    (show (0 : ℝ) < ((1 + isco_a spin) ^ ((1 : ℝ) / 3) -
        (1 - isco_a spin) ^ ((1 : ℝ) / 3)) ^ 2 from
      pow_pos (sub_pos.mpr hVU) 2)]

/-- The clamped photon spin stays in `[1e-6, 0.999]`. -/
lemma photon_a_mem (spin : ℝ) : 1e-6 ≤ photon_a spin ∧ photon_a spin ≤ 0.999 := by
  unfold photon_a
  exact ⟨le_max_right _ _, max_le (min_le_right _ _) (by norm_num)⟩

/-- Rational enclosure of `cos((2/3) * arccos (-a))` for `0 ≤ a ≤ 1`.
The value is the unique root of `4*t^3 - 3*t = 2*a^2 - 1` in
`[-1/2, 1/2]` (triple-angle identity), where `t ↦ 4*t^3 - 3*t` is
strictly decreasing, so rational points whose cubic images straddle
`2*a^2 - 1` enclose it. -/
lemma cos_cubic_bounds (a l u : ℝ) (ha0 : 0 ≤ a) (ha1 : a ≤ 1)
    (hl1 : -(1 / 2) ≤ l) (hl2 : l ≤ 1 / 2) (hu1 : -(1 / 2) ≤ u) (hu2 : u ≤ 1 / 2)
    (hfl : 2 * a ^ 2 - 1 ≤ 4 * l ^ 3 - 3 * l)
    (hfu : 4 * u ^ 3 - 3 * u ≤ 2 * a ^ 2 - 1) :
    l ≤ Real.cos ((2 / 3) * Real.arccos (-a)) ∧
      Real.cos ((2 / 3) * Real.arccos (-a)) ≤ u := by
  have hψ0 : 0 ≤ Real.arccos (-a) := Real.arccos_nonneg _
  have hψπ : Real.arccos (-a) ≤ π := Real.arccos_le_pi _
  have hψhalf : π / 2 ≤ Real.arccos (-a) := by
    have hars : Real.arcsin (-a) ≤ 0 := Real.arcsin_nonpos.mpr (by linarith)
    rw [Real.arccos_eq_pi_div_two_sub_arcsin]
    linarith
  have hcψ : Real.cos (Real.arccos (-a)) = -a :=
    Real.cos_arccos (by linarith) (by linarith)
  set x := Real.cos ((2 / 3) * Real.arccos (-a)) with hxdef
  have hkey : 4 * x ^ 3 - 3 * x = 2 * a ^ 2 - 1 := by
    have h3 : (3 : ℝ) * ((2 / 3) * Real.arccos (-a)) = 2 * Real.arccos (-a) := by
      ring
    have htm := Real.cos_three_mul ((2 / 3) * Real.arccos (-a))
    rw [h3, Real.cos_two_mul, hcψ] at htm
    linear_combination -htm
  have hx2 : x ≤ 1 / 2 := by
    have h := Real.cos_le_cos_of_nonneg_of_le_pi
      (show (0 : ℝ) ≤ π / 3 by positivity)
      (show (2 / 3) * Real.arccos (-a) ≤ π by linarith [Real.pi_pos])
      (show π / 3 ≤ (2 / 3) * Real.arccos (-a) by linarith)
    rwa [Real.cos_pi_div_three] at h
  have hx1 : -(1 / 2) ≤ x := by
    have h := Real.cos_le_cos_of_nonneg_of_le_pi
      (show (0 : ℝ) ≤ (2 / 3) * Real.arccos (-a) by positivity)
      (show 2 * π / 3 ≤ π by linarith [Real.pi_pos])
      (show (2 / 3) * Real.arccos (-a) ≤ 2 * π / 3 by linarith)
    have h2 : Real.cos (2 * π / 3) = -(1 / 2) := by
      rw [show (2 * π / 3 : ℝ) = π - π / 3 by ring, Real.cos_pi_sub,
        Real.cos_pi_div_three]
    linarith
  constructor
  · by_contra hcon
    push_neg at hcon
    have hT : 0 < (l - x) * ((1 - 2 * x) * (1 + 2 * l)) :=
      mul_pos (by linarith) (mul_pos (by linarith) (by linarith))
    have h2 : 0 ≤ (l - x) * ((1 - 2 * l) * (1 + 2 * l)) :=
      mul_nonneg (by linarith) (mul_nonneg (by linarith) (by linarith))
    have h3 : 0 ≤ (l - x) * ((1 - 2 * x) * (1 + 2 * x)) :=
      mul_nonneg (by linarith) (mul_nonneg (by linarith) (by linarith))
    have h4 : 0 ≤ (l - x) * ((1 - 2 * l) * (1 + 2 * x)) :=
      mul_nonneg (by linarith) (mul_nonneg (by linarith) (by linarith))
    nlinarith [hkey, hfl, hT, h2, h3, h4]
  · by_contra hcon
    push_neg at hcon
    have hT : 0 < (x - u) * ((1 - 2 * u) * (1 + 2 * x)) :=
      mul_pos (by linarith) (mul_pos (by linarith) (by linarith))
    have h2 : 0 ≤ (x - u) * ((1 - 2 * x) * (1 + 2 * x)) :=
      mul_nonneg (by linarith) (mul_nonneg (by linarith) (by linarith))
    have h3 : 0 ≤ (x - u) * ((1 - 2 * u) * (1 + 2 * u)) :=
      mul_nonneg (by linarith) (mul_nonneg (by linarith) (by linarith))
    have h4 : 0 ≤ (x - u) * ((1 - 2 * x) * (1 + 2 * u)) :=
      mul_nonneg (by linarith) (mul_nonneg (by linarith) (by linarith))
    nlinarith [hkey, hfu, hT, h2, h3, h4]

/-- Relative error below `tol` from a rational enclosure of the value. -/
lemma relative_error_lt_of_bounds {v e lo hi tol : ℝ} (he : 0 < e)
    (h1 : lo ≤ v) (h2 : v ≤ hi) (h3 : e - tol * e < lo) (h4 : hi < e + tol * e) :
    relative_error v e < tol := by
  unfold relative_error
  rw [div_lt_iff he, abs_sub_lt_iff]
  constructor <;> nlinarith

/-! ### Clamp values at the four reference spins -/

lemma photon_a_zero : photon_a 0.0 = 1e-6 := by
  unfold photon_a
  rw [abs_of_nonneg (by norm_num), min_eq_left (by norm_num),
    max_eq_right (by norm_num)]

lemma photon_a_half : photon_a 0.5 = 0.5 := by
  unfold photon_a
  rw [abs_of_nonneg (by norm_num), min_eq_left (by norm_num),
    max_eq_left (by norm_num)]

lemma photon_a_nine : photon_a 0.9 = 0.9 := by
  unfold photon_a
  rw [abs_of_nonneg (by norm_num), min_eq_left (by norm_num),
    max_eq_left (by norm_num)]

lemma photon_a_max : photon_a 0.998 = 0.998 := by
  unfold photon_a
  rw [abs_of_nonneg (by norm_num), min_eq_left (by norm_num),
    max_eq_left (by norm_num)]

lemma isco_a_zero : isco_a 0.0 = 0.0 := by
  unfold isco_a
  rw [min_eq_left (by norm_num), max_eq_left (by norm_num)]

lemma isco_a_half : isco_a 0.5 = 0.5 := by
  unfold isco_a
  rw [min_eq_left (by norm_num), max_eq_left (by norm_num)]

lemma isco_a_nine : isco_a 0.9 = 0.9 := by
  unfold isco_a
  rw [min_eq_left (by norm_num), max_eq_left (by norm_num)]

lemma isco_a_max : isco_a 0.998 = 0.998 := by
  unfold isco_a
  rw [min_eq_left (by norm_num), max_eq_left (by norm_num)]

/-! ### Photon-ring radius enclosures at the four reference spins -/

lemma photon_radius_zero_bounds :
    2.9998 ≤ photon_radius 0.0 ∧ photon_radius 0.0 ≤ 3 := by
  unfold photon_radius
  rw [photon_a_zero]
  obtain ⟨h1, h2⟩ := cos_cubic_bounds 1e-6 0.4999 (1 / 2) (by norm_num)
    (by norm_num) (by norm_num) (by norm_num) (by norm_num) (by norm_num)
    (by norm_num) (by norm_num)
  constructor <;> linarith

lemma photon_radius_half_bounds :
    2.3472 ≤ photon_radius 0.5 ∧ photon_radius 0.5 ≤ 2.3474 := by
  unfold photon_radius
  rw [photon_a_half]
  obtain ⟨h1, h2⟩ := cos_cubic_bounds 0.5 0.1736 0.1737 (by norm_num)
    (by norm_num) (by norm_num) (by norm_num) (by norm_num) (by norm_num)
    (by norm_num) (by norm_num)
  constructor <;> linarith

lemma photon_radius_nine_bounds :
    1.5578 ≤ photon_radius 0.9 ∧ photon_radius 0.9 ≤ 1.5580 := by
  unfold photon_radius
  rw [photon_a_nine]
  obtain ⟨h1, h2⟩ := cos_cubic_bounds 0.9 (-0.2211) (-0.2210) (by norm_num)
    (by norm_num) (by norm_num) (by norm_num) (by norm_num) (by norm_num)
    (by norm_num) (by norm_num)
  constructor <;> linarith

lemma photon_radius_max_bounds :
    1.0738 ≤ photon_radius 0.998 ∧ photon_radius 0.998 ≤ 1.0740 := by
  unfold photon_radius
  rw [photon_a_max]
  obtain ⟨h1, h2⟩ := cos_cubic_bounds 0.998 (-0.4631) (-0.4630) (by norm_num)
    (by norm_num) (by norm_num) (by norm_num) (by norm_num) (by norm_num)
    (by norm_num) (by norm_num)
  constructor <;> linarith

/-! ### ISCO radius at the four reference spins -/

lemma isco_term_zero : isco_term 0.0 = 1 := by
  unfold isco_term
  rw [isco_a_zero]
  norm_num [Real.one_rpow]

lemma isco_z1_zero : isco_z1 0.0 = 3 := by
  unfold isco_z1
  rw [isco_a_zero, isco_term_zero]
  norm_num [Real.one_rpow]

lemma isco_z2_zero : isco_z2 0.0 = 3 := by
  unfold isco_z2
  rw [isco_a_zero, isco_z1_zero]
  rw [show (3 * (0.0 : ℝ) * 0.0 + 3 * 3 : ℝ) = 3 ^ 2 by norm_num,
    Real.sqrt_sq (by norm_num)]

lemma isco_radius_zero : isco_radius 0.0 = 6 := by
  unfold isco_radius isco_sign
  rw [isco_a_zero, isco_z1_zero, isco_z2_zero,
    if_pos (by norm_num : (0 : ℝ) ≤ 0.0)]
  rw [show ((3 - 3 : ℝ) * (3 + 3 + 2 * 3) : ℝ) = 0 by norm_num, Real.sqrt_zero]
  norm_num

lemma isco_term_half : 0.90856 ≤ isco_term 0.5 ∧ isco_term 0.5 ≤ 0.90857 := by
  unfold isco_term
  rw [isco_a_half, show (1 - (0.5 : ℝ) * 0.5 : ℝ) = 0.75 by norm_num]
  exact ⟨le_rpow_third (by norm_num) (by norm_num),
    rpow_third_le (by norm_num) (by norm_num) (by norm_num)⟩

lemma isco_z1_half : 2.76115 ≤ isco_z1 0.5 ∧ isco_z1 0.5 ≤ 2.76121 := by
  obtain ⟨ht1, ht2⟩ := isco_term_half
  unfold isco_z1
  rw [isco_a_half, show ((1 : ℝ) + 0.5) = 1.5 by norm_num,
    show ((1 : ℝ) - 0.5) = 0.5 by norm_num]
  have hu1 : (1.14471 : ℝ) ≤ (1.5 : ℝ) ^ ((1 : ℝ) / 3) :=
    le_rpow_third (by norm_num) (by norm_num)
  have hu2 : (1.5 : ℝ) ^ ((1 : ℝ) / 3) ≤ 1.14472 :=
    rpow_third_le (by norm_num) (by norm_num) (by norm_num)
  have hv1 : (0.79370 : ℝ) ≤ (0.5 : ℝ) ^ ((1 : ℝ) / 3) :=
    le_rpow_third (by norm_num) (by norm_num)
  have hv2 : (0.5 : ℝ) ^ ((1 : ℝ) / 3) ≤ 0.79371 :=
    rpow_third_le (by norm_num) (by norm_num) (by norm_num)
  constructor
  · nlinarith [mul_le_mul ht1
      (show (1.93841 : ℝ) ≤ (1.5 : ℝ) ^ ((1 : ℝ) / 3) + (0.5 : ℝ) ^ ((1 : ℝ) / 3)
        by linarith)
      (by norm_num) (by linarith)]
  · nlinarith [mul_le_mul ht2
      (show (1.5 : ℝ) ^ ((1 : ℝ) / 3) + (0.5 : ℝ) ^ ((1 : ℝ) / 3) ≤ (1.93843 : ℝ)
        by linarith)
      (by linarith) (by norm_num)]

lemma isco_z2_half : 2.89373 ≤ isco_z2 0.5 ∧ isco_z2 0.5 ≤ 2.89385 := by
  obtain ⟨h1, h2⟩ := isco_z1_half
  unfold isco_z2
  rw [isco_a_half]
  have hsq1 : (2.76115 : ℝ) * 2.76115 ≤ isco_z1 0.5 * isco_z1 0.5 :=
    mul_self_le_mul_self (by norm_num) h1
  have hsq2 : isco_z1 0.5 * isco_z1 0.5 ≤ (2.76121 : ℝ) * 2.76121 :=
    mul_self_le_mul_self (by linarith) h2
  exact sqrt_bounds (by norm_num) (by norm_num) (by nlinarith) (by nlinarith)

lemma isco_radius_half_bounds :
    4.23283 ≤ isco_radius 0.5 ∧ isco_radius 0.5 ≤ 4.23325 := by
  obtain ⟨hz1a, hz1b⟩ := isco_z1_half
  obtain ⟨hz2a, hz2b⟩ := isco_z2_half
  unfold isco_radius isco_sign
  rw [isco_a_half, if_pos (by norm_num : (0 : ℝ) ≤ 0.5)]
  have harg_l : (1.6606 : ℝ) ^ 2 ≤
      (3 - isco_z1 0.5) * (3 + isco_z1 0.5 + 2 * isco_z2 0.5) := by
    nlinarith [mul_le_mul (show (0.23879 : ℝ) ≤ 3 - isco_z1 0.5 by linarith)
      (show (11.54861 : ℝ) ≤ 3 + isco_z1 0.5 + 2 * isco_z2 0.5 by linarith)
      (by norm_num) (by linarith)]
  have harg_u : (3 - isco_z1 0.5) * (3 + isco_z1 0.5 + 2 * isco_z2 0.5) ≤
      (1.6609 : ℝ) ^ 2 := by
    nlinarith [mul_le_mul (show 3 - isco_z1 0.5 ≤ (0.23885 : ℝ) by linarith)
      (show 3 + isco_z1 0.5 + 2 * isco_z2 0.5 ≤ (11.54891 : ℝ) by linarith)
      (by linarith) (by norm_num)]
  obtain ⟨hS1, hS2⟩ := sqrt_bounds (by norm_num) (by norm_num) harg_l harg_u
  constructor <;> nlinarith

lemma isco_term_nine : 0.57488 ≤ isco_term 0.9 ∧ isco_term 0.9 ≤ 0.57490 := by
  unfold isco_term
  rw [isco_a_nine, show (1 - (0.9 : ℝ) * 0.9 : ℝ) = 0.19 by norm_num]
  exact ⟨le_rpow_third (by norm_num) (by norm_num),
    rpow_third_le (by norm_num) (by norm_num) (by norm_num)⟩

lemma isco_z1_nine : 1.97885 ≤ isco_z1 0.9 ∧ isco_z1 0.9 ≤ 1.97890 := by
  obtain ⟨ht1, ht2⟩ := isco_term_nine
  unfold isco_z1
  rw [isco_a_nine, show ((1 : ℝ) + 0.9) = 1.9 by norm_num,
    show ((1 : ℝ) - 0.9) = 0.1 by norm_num]
  have hu1 : (1.23856 : ℝ) ≤ (1.9 : ℝ) ^ ((1 : ℝ) / 3) :=
    le_rpow_third (by norm_num) (by norm_num)
  have hu2 : (1.9 : ℝ) ^ ((1 : ℝ) / 3) ≤ 1.23857 :=
    rpow_third_le (by norm_num) (by norm_num) (by norm_num)
  have hv1 : (0.46415 : ℝ) ≤ (0.1 : ℝ) ^ ((1 : ℝ) / 3) :=
    le_rpow_third (by norm_num) (by norm_num)
  have hv2 : (0.1 : ℝ) ^ ((1 : ℝ) / 3) ≤ 0.46416 :=
    rpow_third_le (by norm_num) (by norm_num) (by norm_num)
  constructor
  · nlinarith [mul_le_mul ht1
      (show (1.70271 : ℝ) ≤ (1.9 : ℝ) ^ ((1 : ℝ) / 3) + (0.1 : ℝ) ^ ((1 : ℝ) / 3)
        by linarith)
      (by norm_num) (by linarith)]
  · nlinarith [mul_le_mul ht2
      (show (1.9 : ℝ) ^ ((1 : ℝ) / 3) + (0.1 : ℝ) ^ ((1 : ℝ) / 3) ≤ (1.70273 : ℝ)
        by linarith)
      (by linarith) (by norm_num)]

lemma isco_z2_nine : 2.51908 ≤ isco_z2 0.9 ∧ isco_z2 0.9 ≤ 2.51914 := by
  obtain ⟨h1, h2⟩ := isco_z1_nine
  unfold isco_z2
  rw [isco_a_nine]
  have hsq1 : (1.97885 : ℝ) * 1.97885 ≤ isco_z1 0.9 * isco_z1 0.9 :=
    mul_self_le_mul_self (by norm_num) h1
  have hsq2 : isco_z1 0.9 * isco_z1 0.9 ≤ (1.97890 : ℝ) * 1.97890 :=
    mul_self_le_mul_self (by linarith) h2
  exact sqrt_bounds (by norm_num) (by norm_num) (by nlinarith) (by nlinarith)

lemma isco_radius_nine_bounds :
    2.32078 ≤ isco_radius 0.9 ∧ isco_radius 0.9 ≤ 2.32096 := by
  obtain ⟨hz1a, hz1b⟩ := isco_z1_nine
  obtain ⟨hz2a, hz2b⟩ := isco_z2_nine
  unfold isco_radius isco_sign
  rw [isco_a_nine, if_pos (by norm_num : (0 : ℝ) ≤ 0.9)]
  have harg_l : (3.19818 : ℝ) ^ 2 ≤
      (3 - isco_z1 0.9) * (3 + isco_z1 0.9 + 2 * isco_z2 0.9) := by
    nlinarith [mul_le_mul (show (1.02110 : ℝ) ≤ 3 - isco_z1 0.9 by linarith)
      (show (10.01701 : ℝ) ≤ 3 + isco_z1 0.9 + 2 * isco_z2 0.9 by linarith)
      (by norm_num) (by linarith)]
  have harg_u : (3 - isco_z1 0.9) * (3 + isco_z1 0.9 + 2 * isco_z2 0.9) ≤
      (3.19830 : ℝ) ^ 2 := by
    nlinarith [mul_le_mul (show 3 - isco_z1 0.9 ≤ (1.02115 : ℝ) by linarith)
      (show 3 + isco_z1 0.9 + 2 * isco_z2 0.9 ≤ (10.01718 : ℝ) by linarith)
      (by linarith) (by norm_num)]
  obtain ⟨hS1, hS2⟩ := sqrt_bounds (by norm_num) (by norm_num) harg_l harg_u
  constructor <;> nlinarith

lemma isco_term_max : 0.15868 ≤ isco_term 0.998 ∧ isco_term 0.998 ≤ 0.15869 := by
  unfold isco_term
  rw [isco_a_max, show (1 - (0.998 : ℝ) * 0.998 : ℝ) = 0.003996 by norm_num]
  exact ⟨le_rpow_third (by norm_num) (by norm_num),
    rpow_third_le (by norm_num) (by norm_num) (by norm_num)⟩

lemma isco_z1_max : 1.21984 ≤ isco_z1 0.998 ∧ isco_z1 0.998 ≤ 1.21987 := by
  obtain ⟨ht1, ht2⟩ := isco_term_max
  unfold isco_z1
  rw [isco_a_max, show ((1 : ℝ) + 0.998) = 1.998 by norm_num,
    show ((1 : ℝ) - 0.998) = 0.002 by norm_num]
  have hu1 : (1.25950 : ℝ) ≤ (1.998 : ℝ) ^ ((1 : ℝ) / 3) :=
    le_rpow_third (by norm_num) (by norm_num)
  have hu2 : (1.998 : ℝ) ^ ((1 : ℝ) / 3) ≤ 1.25951 :=
    rpow_third_le (by norm_num) (by norm_num) (by norm_num)
  have hv1 : (0.12599 : ℝ) ≤ (0.002 : ℝ) ^ ((1 : ℝ) / 3) :=
    le_rpow_third (by norm_num) (by norm_num)
  have hv2 : (0.002 : ℝ) ^ ((1 : ℝ) / 3) ≤ 0.12600 :=
    rpow_third_le (by norm_num) (by norm_num) (by norm_num)
  constructor
  · nlinarith [mul_le_mul ht1
      (show (1.38549 : ℝ) ≤
          (1.998 : ℝ) ^ ((1 : ℝ) / 3) + (0.002 : ℝ) ^ ((1 : ℝ) / 3) by linarith)
      (by norm_num) (by linarith)]
  · nlinarith [mul_le_mul ht2
      (show (1.998 : ℝ) ^ ((1 : ℝ) / 3) + (0.002 : ℝ) ^ ((1 : ℝ) / 3) ≤
          (1.38551 : ℝ) by linarith)
      (by linarith) (by norm_num)]

lemma isco_z2_max : 2.11565 ≤ isco_z2 0.998 ∧ isco_z2 0.998 ≤ 2.11570 := by
  obtain ⟨h1, h2⟩ := isco_z1_max
  unfold isco_z2
  rw [isco_a_max]
  have hsq1 : (1.21984 : ℝ) * 1.21984 ≤ isco_z1 0.998 * isco_z1 0.998 :=
    mul_self_le_mul_self (by norm_num) h1
  have hsq2 : isco_z1 0.998 * isco_z1 0.998 ≤ (1.21987 : ℝ) * 1.21987 :=
    mul_self_le_mul_self (by linarith) h2
  exact sqrt_bounds (by norm_num) (by norm_num) (by nlinarith) (by nlinarith)

lemma isco_radius_max_bounds :
    1.23690 ≤ isco_radius 0.998 ∧ isco_radius 0.998 ≤ 1.23703 := by
  obtain ⟨hz1a, hz1b⟩ := isco_z1_max
  obtain ⟨hz2a, hz2b⟩ := isco_z2_max
  unfold isco_radius isco_sign
  rw [isco_a_max, if_pos (by norm_num : (0 : ℝ) ≤ 0.998)]
  have harg_l : (3.87867 : ℝ) ^ 2 ≤
      (3 - isco_z1 0.998) * (3 + isco_z1 0.998 + 2 * isco_z2 0.998) := by
    nlinarith [mul_le_mul (show (1.78013 : ℝ) ≤ 3 - isco_z1 0.998 by linarith)
      (show (8.45114 : ℝ) ≤ 3 + isco_z1 0.998 + 2 * isco_z2 0.998 by linarith)
      (by norm_num) (by linarith)]
  have harg_u : (3 - isco_z1 0.998) * (3 + isco_z1 0.998 + 2 * isco_z2 0.998) ≤
      (3.87875 : ℝ) ^ 2 := by
    nlinarith [mul_le_mul (show 3 - isco_z1 0.998 ≤ (1.78016 : ℝ) by linarith)
      (show 3 + isco_z1 0.998 + 2 * isco_z2 0.998 ≤ (8.45127 : ℝ) by linarith)
      (by linarith) (by norm_num)]
  obtain ⟨hS1, hS2⟩ := sqrt_bounds (by norm_num) (by norm_num) harg_l harg_u
  constructor <;> nlinarith

/-! ### Per-row relative errors -/

lemma rel_err_isco_zero : relative_error (isco_radius 0.0) 6.0 < 8e-3 :=
  relative_error_lt_of_bounds (by norm_num) (le_of_eq isco_radius_zero.symm)
    (le_of_eq isco_radius_zero) (by norm_num) (by norm_num)

lemma rel_err_isco_half : relative_error (isco_radius 0.5) 4.233 < 8e-3 :=
  relative_error_lt_of_bounds (by norm_num) isco_radius_half_bounds.1
    isco_radius_half_bounds.2 (by norm_num) (by norm_num)

lemma rel_err_isco_nine : relative_error (isco_radius 0.9) 2.320 < 8e-3 :=
  relative_error_lt_of_bounds (by norm_num) isco_radius_nine_bounds.1
    isco_radius_nine_bounds.2 (by norm_num) (by norm_num)

lemma rel_err_isco_max : relative_error (isco_radius 0.998) 1.237 < 8e-3 :=
  relative_error_lt_of_bounds (by norm_num) isco_radius_max_bounds.1
    isco_radius_max_bounds.2 (by norm_num) (by norm_num)

lemma rel_err_photon_zero : relative_error (photon_radius 0.0) 3.0 < 8e-3 :=
  relative_error_lt_of_bounds (by norm_num) photon_radius_zero_bounds.1
    photon_radius_zero_bounds.2 (by norm_num) (by norm_num)

lemma rel_err_photon_half :
    relative_error (photon_radius 0.5) 2.3472963553 < 8e-3 :=
  relative_error_lt_of_bounds (by norm_num) photon_radius_half_bounds.1
    photon_radius_half_bounds.2 (by norm_num) (by norm_num)

lemma rel_err_photon_nine :
    relative_error (photon_radius 0.9) 1.5578546274 < 8e-3 :=
  relative_error_lt_of_bounds (by norm_num) photon_radius_nine_bounds.1
    photon_radius_nine_bounds.2 (by norm_num) (by norm_num)

lemma rel_err_photon_max :
    relative_error (photon_radius 0.998) 1.0739092577 < 8e-3 :=
  relative_error_lt_of_bounds (by norm_num) photon_radius_max_bounds.1
    photon_radius_max_bounds.2 (by norm_num) (by norm_num)

/-! ### Claim theorems -/

/-- C1: for every spin value in `{0.0, 0.5, 0.9, 0.998}`, `isco_radius`
is within 0.8% relative error of the corresponding `REFERENCE_ISCO`
entry and `photon_radius` is within 0.8% relative error of the
corresponding `REFERENCE_PHOTON` entry. -/
theorem reference_values_within_tolerance :
    relative_error (isco_radius 0.0) 6.0 < 8e-3 ∧
    relative_error (isco_radius 0.5) 4.233 < 8e-3 ∧
    relative_error (isco_radius 0.9) 2.320 < 8e-3 ∧
    relative_error (isco_radius 0.998) 1.237 < 8e-3 ∧
    relative_error (photon_radius 0.0) 3.0 < 8e-3 ∧
    relative_error (photon_radius 0.5) 2.3472963553 < 8e-3 ∧
    relative_error (photon_radius 0.9) 1.5578546274 < 8e-3 ∧
    relative_error (photon_radius 0.998) 1.0739092577 < 8e-3 :=
  ⟨rel_err_isco_zero, rel_err_isco_half, rel_err_isco_nine, rel_err_isco_max,
    rel_err_photon_zero, rel_err_photon_half, rel_err_photon_nine,
    rel_err_photon_max⟩

/-- C3: for every real spin, after the clamping steps both radicands of
`isco_radius` are nonnegative (in particular
`(3 - z1) * (3 + z1 + 2*z2) ≥ 0`) and the argument `-a` passed to
`acos` in `photon_radius` lies in `[-1, 1]`, so no domain error can
occur. -/
theorem clamped_domains_safe : ∀ spin : ℝ,
    0 ≤ 3 * isco_a spin * isco_a spin + isco_z1 spin * isco_z1 spin ∧
    0 ≤ (3 - isco_z1 spin) * (3 + isco_z1 spin + 2 * isco_z2 spin) ∧
    -1 ≤ -photon_a spin ∧ -photon_a spin ≤ 1 := by
  intro spin
  have h1 := isco_z1_ge_one spin
  have h3 := isco_z1_le_three spin
  have hz2 : 0 ≤ isco_z2 spin := Real.sqrt_nonneg _
  obtain ⟨hp1, hp2⟩ := photon_a_mem spin
  refine ⟨?_, mul_nonneg (by linarith) (by linarith), by linarith, by linarith⟩
  nlinarith [mul_self_nonneg (isco_a spin), mul_self_nonneg (isco_z1 spin)]

/-- C4: for every spin `0 < a ≤ 0.998`, the prograde ISCO radius
`isco_radius a` is strictly smaller than the retrograde one
`isco_radius (-a)`. -/
theorem prograde_lt_retrograde :
    ∀ a : ℝ, 0 < a → a ≤ 0.998 → isco_radius a < isco_radius (-a) := by
  intro a h1 h2
  have hca : isco_a a = a := by
    unfold isco_a
    rw [min_eq_left h2, max_eq_left (by linarith)]
  have hcna : isco_a (-a) = -a := by
    unfold isco_a
    rw [min_eq_left (by linarith), max_eq_left (by linarith)]
  have hterm : isco_term (-a) = isco_term a := by
    unfold isco_term
    rw [hca, hcna, show (1 - -a * -a : ℝ) = 1 - a * a by ring]
  have hz1 : isco_z1 (-a) = isco_z1 a := by
    unfold isco_z1
    rw [hca, hcna, hterm, show (1 + -a : ℝ) = 1 - a by ring,
      show (1 - -a : ℝ) = 1 + a by ring]
    ring
  have hz2 : isco_z2 (-a) = isco_z2 a := by
    unfold isco_z2
    rw [hca, hcna, hz1, show (3 * -a * -a : ℝ) = 3 * a * a by ring]
  have hsa : isco_sign a = 1 := by
    unfold isco_sign
    rw [hca]
    exact if_pos h1.le
  have hsna : isco_sign (-a) = -1 := by
    unfold isco_sign
    rw [hcna]
    exact if_neg (by simp only [not_le]; linarith)
  have hS : 0 < Real.sqrt ((3 - isco_z1 a) * (3 + isco_z1 a + 2 * isco_z2 a)) := by
    apply Real.sqrt_pos.mpr
    have hlt : isco_z1 a < 3 := isco_z1_lt_three (by rw [hca]; exact h1)
    have hge := isco_z1_ge_one a
    have hz2n : 0 ≤ isco_z2 a := Real.sqrt_nonneg _
    exact mul_pos (by linarith) (by linarith)
  unfold isco_radius
  rw [hz1, hz2, hsa, hsna]
  linarith

/-- Witness for C4 at `a = 0.5`. -/
theorem prograde_lt_retrograde_witness : isco_radius 0.5 < isco_radius (-0.5) :=
  prograde_lt_retrograde 0.5 (by norm_num) (by norm_num)

/-- C5: for every spin at or above the clamp bound `0.998` (such as
`1.5`), `isco_radius` equals `isco_radius 0.998` exactly, and the final
radicand stays nonnegative, so no domain error occurs. -/
theorem isco_saturates_above_max_spin : ∀ spin : ℝ, 0.998 ≤ spin →
    isco_radius spin = isco_radius 0.998 ∧
    0 ≤ (3 - isco_z1 spin) * (3 + isco_z1 spin + 2 * isco_z2 spin) := by
  intro spin h
  have hc : isco_a spin = 0.998 := by
    unfold isco_a
    rw [min_eq_right h, max_eq_left (by norm_num)]
  have hkey : isco_a spin = isco_a 0.998 := by rw [hc, isco_a_max]
  constructor
  · unfold isco_radius isco_sign isco_z2 isco_z1 isco_term
    rw [hkey]
  · have h1 := isco_z1_ge_one spin
    have h3 := isco_z1_le_three spin
    have hz2 : 0 ≤ isco_z2 spin := Real.sqrt_nonneg _
    exact mul_nonneg (by linarith) (by linarith)

/-- Witness for C5 at `spin = 1.5`. -/
theorem isco_saturates_above_max_spin_witness :
    isco_radius 1.5 = isco_radius 0.998 ∧
    0 ≤ (3 - isco_z1 1.5) * (3 + isco_z1 1.5 + 2 * isco_z2 1.5) :=
  isco_saturates_above_max_spin 1.5 (by norm_num)

/-! ### Report-level lemmas -/

/-- `run_checks` computes exactly the fully-evaluated report. -/
lemma run_checks_eq (m : ℝ) (out : String) :
    run_checks m out = Except.ok (kerr_report m) := rfl

/-- A left fold of `max` is below a bound iff the seed and every list
element are. -/
lemma foldl_max_lt (c : ℝ) : ∀ (vs : List ℝ) (v : ℝ),
    vs.foldl max v < c ↔ v < c ∧ ∀ x ∈ vs, x < c := by
  intro vs
  induction vs with
  | nil => intro v; simp
  | cons w ws ih =>
      intro v
      rw [List.foldl_cons, ih (max v w)]
      simp only [List.mem_cons, max_lt_iff]
      constructor
      · rintro ⟨⟨h1, h2⟩, h3⟩
        exact ⟨h1, fun x hx => hx.elim (fun hxe => hxe ▸ h2) (h3 x)⟩
      · rintro ⟨h1, h2⟩
        exact ⟨⟨h1, h2 w (Or.inl rfl)⟩, fun x hx => h2 x (Or.inr hx)⟩

/-- The maximum relative error over both reference tables is below the
`8e-3` threshold. -/
lemma kerr_max_rel_error_lt : kerr_max_rel_error < 8e-3 := by
  unfold kerr_max_rel_error
  rw [foldl_max_lt]
  refine ⟨rel_err_isco_zero, ?_⟩
  intro x hx
  simp only [List.mem_cons, List.not_mem_nil, or_false] at hx
  rcases hx with rfl | rfl | rfl | rfl | rfl | rfl | rfl
  exacts [rel_err_isco_half, rel_err_isco_nine, rel_err_isco_max,
    rel_err_photon_zero, rel_err_photon_half, rel_err_photon_nine,
    rel_err_photon_max]

/-- The report's `ok` flag is set on every run. -/
lemma kerr_report_ok_true (m : ℝ) : (kerr_report m).ok = true :=
  decide_eq_true kerr_max_rel_error_lt

/-- C2: the report's `ok` field is `true` exactly when
`max_rel_error < 8e-3`, and `main` exits with status `0` when `ok` is
`true` and `1` when it is `false`. -/
theorem ok_iff_threshold_and_exit_code : ∀ (m : ℝ) (out : String),
    ∃ r : Report, run_checks m out = Except.ok r ∧
      (r.ok = true ↔ r.max_rel_error < 8e-3) ∧
      main m out = Except.ok (stdout_line r, if r.ok then 0 else 1) := by
  intro m out
  exact ⟨kerr_report m, run_checks_eq m out, decide_eq_true_iff, rfl⟩

/-- C6: the report's `entries` list all the isco rows before all the
photon rows, each group in the reference table's insertion order
`0.0, 0.5, 0.9, 0.998`. -/
theorem entries_ordering : ∀ (m : ℝ) (out : String),
    ∃ r : Report, run_checks m out = Except.ok r ∧
      r.entries.map (fun e => (e.quantity, e.spin)) =
        [("isco", 0.0), ("isco", 0.5), ("isco", 0.9), ("isco", 0.998),
          ("photon", 0.0), ("photon", 0.5), ("photon", 0.9), ("photon", 0.998)] := by
  intro m out
  exact ⟨kerr_report m, run_checks_eq m out, rfl⟩

/-- C9: for every mass and output path the report has exactly 8
entries, 4 isco and 4 photon, independent of the mass. -/
theorem entries_count_fixed : ∀ (m : ℝ) (out : String),
    ∃ r : Report, run_checks m out = Except.ok r ∧
      r.entries.length = 8 ∧
      (r.entries.filter fun e => e.quantity == "isco").length = 4 ∧
      (r.entries.filter fun e => e.quantity == "photon").length = 4 := by
  intro m out
  exact ⟨kerr_report m, run_checks_eq m out, rfl, rfl, rfl⟩

/-- C10: the report's `ok` field is `true` iff every entry's relative
error is strictly below `8e-3`. -/
theorem ok_iff_all_entries_within_threshold : ∀ (m : ℝ) (out : String),
    ∃ r : Report, run_checks m out = Except.ok r ∧
      (r.ok = true ↔ ∀ e ∈ r.entries, e.relative_error < 8e-3) := by
  intro m out
  refine ⟨kerr_report m, run_checks_eq m out, ?_⟩
  have hiff : (kerr_report m).ok = true ↔ (kerr_report m).max_rel_error < 8e-3 :=
    decide_eq_true_iff
  rw [hiff, show (kerr_report m).max_rel_error = kerr_max_rel_error from rfl]
  unfold kerr_max_rel_error
  rw [foldl_max_lt]
  constructor
  · rintro ⟨h1, h2⟩ e he
    simp only [kerr_report, List.mem_cons, List.not_mem_nil, or_false] at he
    rcases he with rfl | rfl | rfl | rfl | rfl | rfl | rfl | rfl
    · exact h1
    · exact h2 _ (by simp)
    · exact h2 _ (by simp)
    · exact h2 _ (by simp)
    · exact h2 _ (by simp)
    · exact h2 _ (by simp)
    · exact h2 _ (by simp)
    · exact h2 _ (by simp)
  · intro h
    refine ⟨h ⟨"isco", 0.0, relative_error (isco_radius 0.0) 6.0⟩
      (by simp [kerr_report]), ?_⟩
    intro x hx
    simp only [List.mem_cons, List.not_mem_nil, or_false] at hx
    rcases hx with rfl | rfl | rfl | rfl | rfl | rfl | rfl
    · exact h ⟨"isco", 0.5, relative_error (isco_radius 0.5) 4.233⟩
        (by simp [kerr_report])
    · exact h ⟨"isco", 0.9, relative_error (isco_radius 0.9) 2.320⟩
        (by simp [kerr_report])
    · exact h ⟨"isco", 0.998, relative_error (isco_radius 0.998) 1.237⟩
        (by simp [kerr_report])
    · exact h ⟨"photon", 0.0, relative_error (photon_radius 0.0) 3.0⟩
        (by simp [kerr_report])
    · exact h ⟨"photon", 0.5, relative_error (photon_radius 0.5) 2.3472963553⟩
        (by simp [kerr_report])
    · exact h ⟨"photon", 0.9, relative_error (photon_radius 0.9) 1.5578546274⟩
        (by simp [kerr_report])
    · exact h ⟨"photon", 0.998, relative_error (photon_radius 0.998) 1.0739092577⟩
        (by simp [kerr_report])

/-- C8: on the empty error sequence `summarize` signals an explicit
error (Python's `max` raises `ValueError` before any mean is computed),
rather than reaching a division by zero. -/
theorem summarize_empty_explicit_error :
    summarize [] = Except.error "max() arg is an empty sequence" := rfl

/-- C7 counterexample: on the default run all checks pass, yet the
printed line still carries the `mean_rel_error` field, so the claimed
PASS format (max only) does not match the code. -/
theorem pass_line_includes_mean_counterexample :
    ∃ r : Report, run_checks 6.5e8 "validation_report.json" = Except.ok r ∧
      r.ok = true ∧ stdout_line r ≠ spec_stdout_line r := by
  refine ⟨kerr_report 6.5e8, run_checks_eq _ _, kerr_report_ok_true _, ?_⟩
  intro heq
  rw [spec_stdout_line, if_pos (kerr_report_ok_true 6.5e8)] at heq
  have hlen := congrArg List.length heq
  simp [stdout_line] at hlen

/-- C7 (amended): the program writes exactly one stdout line, of the
form `[PASS] max_rel_error=<e> mean_rel_error=<e>` — the mean is
printed in the PASS case too — and since the fixed tables pass, the
verdict is `PASS` with exit status `0`. -/
theorem stdout_single_line_with_mean : ∀ (m : ℝ) (out : String),
    ∃ r : Report, run_checks m out = Except.ok r ∧ r.ok = true ∧
      main m out = Except.ok
        ([OutPiece.lit "[", OutPiece.lit "PASS",
          OutPiece.lit "] max_rel_error=", OutPiece.num r.max_rel_error,
          OutPiece.lit " mean_rel_error=", OutPiece.num r.mean_rel_error], 0) := by
  intro m out
  refine ⟨kerr_report m, run_checks_eq m out, kerr_report_ok_true m, ?_⟩
  unfold main
  rw [run_checks_eq m out]
  simp only [Except.map, stdout_line, kerr_report_ok_true m, if_true]

end VerifyKerr
